import Mathlib

/-! # Record cache reconciliation and record-blob decoding of the Tudor driver

A shallow embedding of `libfprint-tod/src/data.c`: the record-blob decoder
(`get_record_guid_finger`, `get_print_guid_finger`), the acknowledged delete and
clear-storage commands (`fpi_device_tudor_delete`, `fpi_device_clear_storage`)
and their acknowledgment callbacks (`delete_acked_cb`, `clear_storage_acked_cb`).

Pointers written through by the C code (`RECGUID *guid`, `enum tudor_finger *finger`,
`tdev->db_records`, `tdev->send_msg`) are modelled by explicit state passing: a
function receives the old content and returns the new one.  Calls into libfprint
and into the IPC layer, which only have an effect outside `data.c`, are recorded
in log fields of the device state (`completions`, `acked_sends`).
-/

namespace Tudor

/-! ## Data model -/

/-- One byte (`guchar`, `guint8`). -/
abbrev guchar := Fin 256

/-- Modelled from the spec: `RECGUID` is declared outside `data.c`; it is the
fixed-size opaque record identifier of 16 bytes. -/
structure RECGUID where
  bytes : List guchar
  size_eq : bytes.length = 16
  deriving DecidableEq

/-- The value of `sizeof(RECGUID)`. -/
def sizeof_RECGUID : Nat := 16

/-- The C type `enum tudor_finger`, as the integer value of the enumerator. -/
abbrev tudor_finger := Nat

/-- Modelled from the spec: `struct record`, one entry of the record cache
(`tdev->db_records`), declared outside `data.c`. -/
structure record where
  guid : RECGUID
  finger : tudor_finger
  deriving DecidableEq

/-- The C type `struct delete_params`: the identity a pending delete carries to its
acknowledgment callback. -/
structure delete_params where
  guid : RECGUID
  finger : tudor_finger
  deriving DecidableEq

/-- Errors handed to the completion functions.  `unresponsive` is the error of the
liveness check, `data_invalid` is `fpi_device_error_new(FP_DEVICE_ERROR_DATA_INVALID)`,
`transport` stands for any error the IPC layer reports through the task. -/
inductive GError where
  | unresponsive
  | data_invalid
  | transport (code : Nat)
  deriving DecidableEq

/-- The enumerators of `enum ipc_msg_type` used in `data.c`; `other` covers the
remaining message types. -/
inductive ipc_msg_type where
  | IPC_MSG_DEL_RECORD
  | IPC_MSG_CLEAR_RECORDS
  | other (code : Nat)
  deriving DecidableEq

/-- The value of `sizeof(enum ipc_msg_type)`. -/
def sizeof_ipc_msg_type : Nat := 4

/-- The value of `sizeof(struct ipc_msg_del_record)`: the tag, the guid and the finger. -/
def sizeof_ipc_msg_del_record : Nat := sizeof_ipc_msg_type + sizeof_RECGUID + 4

/-- The C type `IPCMessageBuf`, restricted to the members `data.c` writes: `size` and,
of the message union, the `del_record` view.  `type` is the tag shared by every
member of the union (`msg->type` and `msg->del_record.type` are the same storage). -/
structure IPCMessageBuf where
  size : Nat
  type : ipc_msg_type
  guid : RECGUID
  finger : tudor_finger
  deriving DecidableEq

/-! ## GVariant -/

/-- The type of a `GVariant` value (`GVariantType`). -/
inductive GVariantType where
  | boolean
  | byte
  | int32
  | uint32
  | string
  | variant
  | array (elem : GVariantType)
  | tuple (items : List GVariantType)

/-- A `GVariant` value.  An array carries its element type, as an empty array has one too. -/
inductive GVariant where
  | boolean (b : Bool)
  | byte (b : guchar)
  | int32 (n : Int)
  | uint32 (n : Nat)
  | string (s : String)
  | variant (v : GVariant)
  | array (elem : GVariantType) (items : List GVariant)
  | tuple (items : List GVariant)

mutual
/-- Equality test on `GVariantType`. -/
def GVariantType.beq : GVariantType → GVariantType → Bool
  | .boolean, .boolean => true
  | .byte, .byte => true
  | .int32, .int32 => true
  | .uint32, .uint32 => true
  | .string, .string => true
  | .variant, .variant => true
  | .array a, .array b => GVariantType.beq a b
  | .tuple as, .tuple bs => GVariantType.beqList as bs
  | _, _ => false
/-- Equality test on lists of `GVariantType`. -/
def GVariantType.beqList : List GVariantType → List GVariantType → Bool
  | [], [] => true
  | a :: as, b :: bs => GVariantType.beq a b && GVariantType.beqList as bs
  | _, _ => false
end

mutual
/-- The GLib function `g_variant_get_type`. -/
def g_variant_get_type : GVariant → GVariantType
  | .boolean _ => .boolean
  | .byte _ => .byte
  | .int32 _ => .int32
  | .uint32 _ => .uint32
  | .string _ => .string
  | .variant _ => .variant
  | .array elem _ => .array elem
  | .tuple items => .tuple (g_variant_get_types items)
/-- The types of the children of a tuple. -/
def g_variant_get_types : List GVariant → List GVariantType
  | [] => []
  | v :: vs => g_variant_get_type v :: g_variant_get_types vs
end

mutual
/-- Well-formed values: every item of an array has the array's element type. -/
def GVariant.WF : GVariant → Bool
  | .variant v => GVariant.WF v
  | .array elem items => GVariant.WFItems elem items
  | .tuple items => GVariant.WFAll items
  | _ => true
/-- Every item is well-formed and has type `elem`. -/
def GVariant.WFItems (elem : GVariantType) : List GVariant → Bool
  | [] => true
  | v :: vs => GVariantType.beq (g_variant_get_type v) elem && GVariant.WF v
      && GVariant.WFItems elem vs
/-- Every item is well-formed. -/
def GVariant.WFAll : List GVariant → Bool
  | [] => true
  | v :: vs => GVariant.WF v && GVariant.WFAll vs
end

/-- The macro `RECORD_VARIANT_TYPE`, the format string `"(@ayy@ay)"`.  The `@` marks only
say that a child is fetched as a `GVariant`; the type the format stands for is `(ayyay)`. -/
def RECORD_VARIANT_TYPE : GVariantType :=
  .tuple [.array .byte, .byte, .array .byte]

/-- The GLib function `g_variant_check_format_string` for a format string without
wildcards: the value's type is the type of the format. -/
def g_variant_check_format_string (value : GVariant) (format : GVariantType) : Bool :=
  GVariantType.beq (g_variant_get_type value) format

/-- The byte a child holds; a child of another type holds none. -/
def GVariant.get_byte : GVariant → guchar
  | .byte b => b
  | _ => 0

/-- The GLib function `g_variant_get_fixed_array` with element size 1, on a byte array:
the bytes of the array; their number is the `n_elements` output. -/
def g_variant_get_fixed_array : GVariant → List guchar
  | .array .byte items => items.map GVariant.get_byte
  | _ => []

/-! ## Record blob codec -/

/-- The return value and the output parameters of `get_record_guid_finger`. -/
structure GuidFinger where
  ret : Bool
  guid : RECGUID
  finger : tudor_finger
  deriving DecidableEq

/-- A one-byte store to the address of an `enum tudor_finger` (what `g_variant_get` does
for the `y` of the format string) on a little-endian machine: the low byte is replaced,
the other bytes are kept. -/
def store_byte (old : tudor_finger) (b : guchar) : tudor_finger :=
  old - old % 256 + b.val

/-- The C function `get_record_guid_finger`.  `guid` and `finger` are the contents of the
caller's output locations before the call. -/
def get_record_guid_finger (var : GVariant) (guid : RECGUID) (finger : tudor_finger) :
    GuidFinger :=
  if !g_variant_check_format_string var RECORD_VARIANT_TYPE then ⟨false, guid, finger⟩
  else
    -- Parse the top level variant
    let finger : tudor_finger := 0
    match var with
    | .tuple [_, finger_var, guid_var] =>
      let finger := store_byte finger finger_var.get_byte
      -- Parse the GUID variant
      let var_guid := g_variant_get_fixed_array guid_var
      let var_guid_sz := var_guid.length
      let guid := if h : var_guid_sz = 16 then (⟨var_guid, h⟩ : RECGUID) else guid
      ⟨var_guid_sz == sizeof_RECGUID, guid, finger⟩
    | _ => ⟨false, guid, finger⟩

/-- The properties of an `FpPrint` that `data.c` reads: `driver` (`NULL` is `none`),
the device-stored flag and the `fpi-data` payload. -/
structure FpPrint where
  driver : Option String
  device_stored : Bool
  fpi_data : GVariant

/-- The GLib function `g_strcmp0`: `strcmp` that also accepts `NULL`, which sorts first. -/
def g_strcmp0 : Option String → Option String → Int
  | none, none => 0
  | none, some _ => -1
  | some _, none => 1
  | some a, some b => if a = b then 0 else if a < b then -1 else 1

/-- The return value and output parameters of `get_print_guid_finger`, with the list of
print properties fetched through `g_object_get`, in order. -/
structure PrintGuidFinger where
  ret : Bool
  guid : RECGUID
  finger : tudor_finger
  props_read : List String
  deriving DecidableEq

/-- The C function `get_print_guid_finger`; `dev_driver` is `fp_device_get_driver(dev)`. -/
def get_print_guid_finger (dev_driver : String) (print : FpPrint) (guid : RECGUID)
    (finger : tudor_finger) : PrintGuidFinger :=
  -- Check the driver ID
  let print_driver := print.driver
  if g_strcmp0 print_driver (some dev_driver) != 0 then ⟨false, guid, finger, ["driver"]⟩
  -- Check if the print is marked as "device stored"
  else if !print.device_stored then ⟨false, guid, finger, ["driver"]⟩
  else
    -- Get the print data
    let print_data := print.fpi_data
    -- Peek the GUID and finger
    let data_valid := get_record_guid_finger print_data guid finger
    ⟨data_valid.ret, data_valid.guid, data_valid.finger, ["driver", "fpi-data"]⟩

/-! ## Device state -/

/-- The callbacks `data.c` registers with `send_acked_ipc_msg`, each with its `user_data`. -/
inductive AckedCallback where
  | delete_acked_cb (user_data : delete_params)
  | clear_storage_acked_cb
  deriving DecidableEq

/-- One call of `send_acked_ipc_msg`: the message as it was in the buffer at the call,
and the callback to run on the acknowledgment. -/
structure AckedSend where
  msg : IPCMessageBuf
  callback : AckedCallback
  deriving DecidableEq

/-- A call of a libfprint completion function, with its error argument (`NULL` is `none`). -/
inductive Completion where
  | fpi_device_delete_complete (error : Option GError)
  | fpi_device_clear_storage_complete (error : Option GError)
  deriving DecidableEq

/-- The device object `FpiDeviceTudor`, restricted to what `data.c` uses.  `acked_sends`
and `completions` log the calls of `send_acked_ipc_msg` and of the completion functions,
oldest first. -/
structure FpiDeviceTudor where
  driver : String
  host_dead : Bool
  delete_data : FpPrint
  db_records : List record
  send_msg : IPCMessageBuf
  acked_sends : List AckedSend
  completions : List Completion

/-- Modelled from the spec: `check_host_proc_dead` is defined outside `data.c`.  When the
host process is dead it returns true and sets the error to "device unresponsive";
otherwise it returns false and leaves the error unset. -/
def check_host_proc_dead (tdev : FpiDeviceTudor) : Bool × Option GError :=
  if tdev.host_dead then (true, some GError.unresponsive) else (false, none)

/-- Modelled from the spec: `send_acked_ipc_msg` is defined outside `data.c`.  It sends
the one command message and registers the callback that runs on its acknowledgment. -/
def send_acked_ipc_msg (tdev : FpiDeviceTudor) (msg : IPCMessageBuf)
    (callback : AckedCallback) : FpiDeviceTudor :=
  { tdev with acked_sends := tdev.acked_sends ++ [⟨msg, callback⟩] }

/-- The libfprint function `fpi_device_delete_complete`. -/
def fpi_device_delete_complete (tdev : FpiDeviceTudor) (error : Option GError) :
    FpiDeviceTudor :=
  { tdev with completions := tdev.completions ++ [.fpi_device_delete_complete error] }

/-- The libfprint function `fpi_device_clear_storage_complete`. -/
def fpi_device_clear_storage_complete (tdev : FpiDeviceTudor) (error : Option GError) :
    FpiDeviceTudor :=
  { tdev with completions := tdev.completions ++ [.fpi_device_clear_storage_complete error] }

/-- What the task of an acknowledged send holds when its callback runs: a pointer
(the acknowledgment message, or `NULL`) or an error. -/
inductive GTaskResult where
  | pointer (msg : Option IPCMessageBuf)
  | error (e : GError)
  deriving DecidableEq

/-- The GLib function `g_task_propagate_pointer`: the returned pointer and the error set. -/
def g_task_propagate_pointer : GTaskResult → Option IPCMessageBuf × Option GError
  | .pointer msg => (msg, none)
  | .error e => (none, some e)

/-! ## Record cache -/

/-- The C function `memcmp` on the first `n` bytes: zero when they agree, otherwise the
difference of the first pair of bytes that differ. -/
def memcmp : List guchar → List guchar → Nat → Int
  | a :: as, b :: bs, n + 1 => if a = b then memcmp as bs n else (a.val : Int) - (b.val : Int)
  | _, _, _ => 0

/-- The GLib function `g_ptr_array_remove_index_fast`: the last element takes the place of
the removed one, and the array shrinks by one. -/
def g_ptr_array_remove_index_fast {α : Type} (array : List α) (index : Nat) : List α :=
  if index < array.length then
    match array.getLast? with
    | some last =>
      (if index ≠ array.length - 1 then array.set index last else array).dropLast
    | none => array
  else array

/-- The GLib function `g_ptr_array_set_size`, for a size that does not grow the array. -/
def g_ptr_array_set_size {α : Type} (array : List α) (length : Nat) : List α :=
  array.take length

/-- The condition of the `if` in the loop of `delete_acked_cb`. -/
def record_matches (entry : record) (params : delete_params) : Bool :=
  memcmp entry.guid.bytes params.guid.bytes sizeof_RECGUID == 0
    && entry.finger == params.finger

/-- The loop of `delete_acked_cb` from index `i` on, with its condition
`i < tdev->db_records->len` and the `break` after the removal.  `fuel` bounds the number
of iterations; `delete_acked_cb` passes the length of the array, which the loop never
exceeds (`delete_acked_cb_loop_eq`).  The counter is an `int` compared with the unsigned
length; it stays below the length, so it is a natural number here. -/
def delete_acked_cb_loop (params : delete_params) :
    Nat → Nat → List record → List record
  | 0, _, db_records => db_records
  | fuel + 1, i, db_records =>
    if h : i < db_records.length then
      let entry := db_records[i]
      if record_matches entry params then g_ptr_array_remove_index_fast db_records i
      else delete_acked_cb_loop params fuel (i + 1) db_records
    else db_records

/-- The C function `delete_acked_cb`. -/
def delete_acked_cb (tdev : FpiDeviceTudor) (res : GTaskResult) (params : delete_params) :
    FpiDeviceTudor :=
  -- Check for error
  match g_task_propagate_pointer res with
  | (none, error) => fpi_device_clear_storage_complete tdev error
  | (some _, _) =>
    -- Remove the record if it is in the DB
    let db_records := delete_acked_cb_loop params tdev.db_records.length 0 tdev.db_records
    let tdev := { tdev with db_records := db_records }
    -- Notify libfprint of completion
    fpi_device_delete_complete tdev none

/-- The C function `fpi_device_tudor_delete`.  `uninit` is the content of the freshly
allocated `struct delete_params`. -/
def fpi_device_tudor_delete (tdev : FpiDeviceTudor) (uninit : delete_params) :
    FpiDeviceTudor :=
  -- Check if host process is dead
  match check_host_proc_dead tdev with
  | (true, error) => fpi_device_delete_complete tdev error
  | (false, _) =>
    -- Get the print and its GUID / finger
    let print := tdev.delete_data
    let r := get_print_guid_finger tdev.driver print uninit.guid uninit.finger
    let params : delete_params := ⟨r.guid, r.finger⟩
    if !r.ret then fpi_device_delete_complete tdev (some GError.data_invalid)
    else
      -- Tell the driver host
      let send_msg := { tdev.send_msg with size := sizeof_ipc_msg_del_record }
      let send_msg := { send_msg with
        type := ipc_msg_type.IPC_MSG_DEL_RECORD, guid := params.guid, finger := params.finger }
      let tdev := { tdev with send_msg := send_msg }
      send_acked_ipc_msg tdev tdev.send_msg (.delete_acked_cb params)

/-- The C function `clear_storage_acked_cb`. -/
def clear_storage_acked_cb (tdev : FpiDeviceTudor) (res : GTaskResult) : FpiDeviceTudor :=
  -- Check for error
  match g_task_propagate_pointer res with
  | (none, error) => fpi_device_clear_storage_complete tdev error
  | (some _, _) =>
    -- Clear DB records array
    let tdev := { tdev with db_records := g_ptr_array_set_size tdev.db_records 0 }
    -- Notify libfprint of completion
    fpi_device_clear_storage_complete tdev none

/-- The C function `fpi_device_clear_storage`. -/
def fpi_device_clear_storage (tdev : FpiDeviceTudor) : FpiDeviceTudor :=
  -- Check if host process is dead
  match check_host_proc_dead tdev with
  | (true, error) => fpi_device_clear_storage_complete tdev error
  | (false, _) =>
    -- Tell the driver host
    let send_msg := { tdev.send_msg with size := sizeof_ipc_msg_type }
    let send_msg := { send_msg with type := ipc_msg_type.IPC_MSG_CLEAR_RECORDS }
    let tdev := { tdev with send_msg := send_msg }
    send_acked_ipc_msg tdev tdev.send_msg .clear_storage_acked_cb

/-- The callback of an acknowledged send, run on the result of its task. -/
def AckedSend.run (p : AckedSend) (tdev : FpiDeviceTudor) (res : GTaskResult) :
    FpiDeviceTudor :=
  match p.callback with
  | .delete_acked_cb params => delete_acked_cb tdev res params
  | .clear_storage_acked_cb => clear_storage_acked_cb tdev res

/-- The callbacks of the commands a request sent, run in order on the result `res` of
the acknowledgment wait: `before` is the device the request started from, `requested`
the device it left, and the commands it sent are the entries the request added to
`acked_sends`. -/
def run_acked_callbacks (before requested : FpiDeviceTudor) (res : GTaskResult) :
    FpiDeviceTudor :=
  (requested.acked_sends.drop before.acked_sends.length).foldl
    (fun dev p => p.run dev res) requested

/-- The delete operation as a whole: the request `fpi_device_tudor_delete`, then, when
it sent a command, the registered callback on the result of the acknowledgment wait. -/
def delete_operation (tdev : FpiDeviceTudor) (uninit : delete_params) (res : GTaskResult) :
    FpiDeviceTudor :=
  run_acked_callbacks tdev (fpi_device_tudor_delete tdev uninit) res

/-- The clear-storage operation as a whole: the request `fpi_device_clear_storage`, then,
when it sent a command, the registered callback on the result of the acknowledgment
wait. -/
def clear_storage_operation (tdev : FpiDeviceTudor) (res : GTaskResult) : FpiDeviceTudor :=
  run_acked_callbacks tdev (fpi_device_clear_storage tdev) res

/-! ## Pairing data transfer -/

/-- The C type `GByteArray`, by its content; a `NULL` pointer to one is `none`. -/
abbrev GByteArray := List guchar

/-- Modelled from the spec: the two methods of the host launcher interface that `data.c`
calls, named by the macros of `tudor/dbus-launcher.h`. -/
inductive LauncherMethod where
  | TUDOR_HOST_LAUNCHER_LOAD_PAIRING_DATA_METHOD
  | TUDOR_HOST_LAUNCHER_STORE_PAIRING_DATA_METHOD
  deriving DecidableEq

/-- The connection `tdev->dbus_con` to the host launcher service: the state of the peer,
and what a method call does to that state and answers, a reply or an error. -/
structure GDBusConnection (σ : Type) where
  peer : σ
  method_call : σ → LauncherMethod → GVariant → σ × Except GError GVariant

/-- The code of `G_IO_ERROR_INVALID_ARGUMENT`, the error of a reply of the wrong type. -/
def G_IO_ERROR_INVALID_ARGUMENT : Nat := 13

/-- The outcome of `g_dbus_connection_call_sync`: the connection after the call, the
returned reply (`NULL` is `none`) and the error set. -/
structure CallResult (σ : Type) where
  con : GDBusConnection σ
  rets : Option GVariant
  error : Option GError

/-- The GIO function `g_dbus_connection_call_sync` on the host launcher object.  A reply
whose type is not the expected `reply_type` is turned into an error. -/
def g_dbus_connection_call_sync {σ : Type} (con : GDBusConnection σ)
    (method : LauncherMethod) (parameters : GVariant) (reply_type : Option GVariantType) :
    CallResult σ :=
  match con.method_call con.peer method parameters with
  | (peer, .error e) => ⟨{ con with peer := peer }, none, some e⟩
  | (peer, .ok rets) =>
    match reply_type with
    | none => ⟨{ con with peer := peer }, some rets, none⟩
    | some t =>
      if GVariantType.beq (g_variant_get_type rets) t then
        ⟨{ con with peer := peer }, some rets, none⟩
      else ⟨{ con with peer := peer }, none, some (GError.transport G_IO_ERROR_INVALID_ARGUMENT)⟩

/-- The GLib function `g_variant_new_fixed_array` for bytes. -/
def g_variant_new_fixed_array (data : List guchar) : GVariant :=
  .array .byte (data.map GVariant.byte)

/-- The GLib function `g_variant_get_child_value` on a tuple. -/
def g_variant_get_child_value (value : GVariant) (index : Nat) : GVariant :=
  match value with
  | .tuple items => items.getD index (.tuple [])
  | _ => .tuple []

/-- The boolean a child holds; a child of another type holds none. -/
def GVariant.get_boolean : GVariant → Bool
  | .boolean b => b
  | _ => false

/-- The return value and outputs of `load_pdata`, with the connection after the call. -/
structure LoadResult (σ : Type) where
  ret : Bool
  pdata : Option GByteArray
  error : Option GError
  con : GDBusConnection σ

/-- The C function `load_pdata`; `dbus_con` and `sensor_name` are the fields of `tdev` it
uses, `pdata` is the content of the output location before the call. -/
def load_pdata {σ : Type} (dbus_con : GDBusConnection σ) (sensor_name : String)
    (pdata : Option GByteArray) : LoadResult σ :=
  -- Tell the host launcher service to load the pairing data
  let call := g_dbus_connection_call_sync dbus_con
    LauncherMethod.TUDOR_HOST_LAUNCHER_LOAD_PAIRING_DATA_METHOD
    (.tuple [.string sensor_name]) (some (.tuple [.boolean, .array .byte]))
  match call.rets with
  | none => ⟨false, pdata, call.error, call.con⟩
  | some rets =>
    -- Parse return value
    let has_pdata := (g_variant_get_child_value rets 0).get_boolean
    let pdata_var := g_variant_get_child_value rets 1
    let pdata :=
      if has_pdata then
        -- Create pairing data array
        some (g_variant_get_fixed_array pdata_var)
      else none
    ⟨true, pdata, call.error, call.con⟩

/-- The return value and error output of `store_pdata`, with the connection after the call. -/
structure StoreResult (σ : Type) where
  ret : Bool
  error : Option GError
  con : GDBusConnection σ

/-- The C function `store_pdata`; `dbus_con` and `sensor_name` are the fields of `tdev` it
uses. -/
def store_pdata {σ : Type} (dbus_con : GDBusConnection σ) (sensor_name : String)
    (pdata : GByteArray) : StoreResult σ :=
  -- Tell the host launcher service to store the pairing data
  let params := GVariant.tuple [.string sensor_name, g_variant_new_fixed_array pdata]
  let call := g_dbus_connection_call_sync dbus_con
    LauncherMethod.TUDOR_HOST_LAUNCHER_STORE_PAIRING_DATA_METHOD params none
  match call.rets with
  | none => ⟨false, call.error, call.con⟩
  | some _ => ⟨true, call.error, call.con⟩

/-- Modelled from the spec: the fake host double of the round-trip property.  It keeps,
per sensor name, the last stored blob (the newest entry comes first), answers a store
with an empty reply and a load with `(true, blob)`, or `(false, [])` when nothing is
stored for the sensor. -/
def fake_host (stored : List (String × GByteArray)) (method : LauncherMethod)
    (parameters : GVariant) : List (String × GByteArray) × Except GError GVariant :=
  match method, parameters with
  | .TUDOR_HOST_LAUNCHER_STORE_PAIRING_DATA_METHOD, .tuple [.string name, blob] =>
    ((name, g_variant_get_fixed_array blob) :: stored, .ok (.tuple []))
  | .TUDOR_HOST_LAUNCHER_LOAD_PAIRING_DATA_METHOD, .tuple [.string name] =>
    match stored.lookup name with
    | some blob => (stored, .ok (.tuple [.boolean true, g_variant_new_fixed_array blob]))
    | none => (stored, .ok (.tuple [.boolean false, g_variant_new_fixed_array []]))
  | _, _ => (stored, .error (GError.transport G_IO_ERROR_INVALID_ARGUMENT))

/-- A connection to the fake host double. -/
def fake_con (stored : List (String × GByteArray)) :
    GDBusConnection (List (String × GByteArray)) :=
  ⟨stored, fake_host⟩

/-- A connection to a host that answers every call with the same reply or error. -/
def const_con (answer : Except GError GVariant) : GDBusConnection Unit :=
  ⟨(), fun _ _ _ => ((), answer)⟩

/-! ## Sample data -/

/-- The guid whose 16 bytes all equal `b`. -/
def RECGUID.fill (b : guchar) : RECGUID := ⟨List.replicate 16 b, by simp⟩

/-- A record blob `(ay, y, ay)` with an empty reserved field. -/
def record_blob (finger : guchar) (guid : List guchar) : GVariant :=
  .tuple [.array .byte [], .byte finger, .array .byte (guid.map GVariant.byte)]

/-- The driver identifier of the sample device. -/
def tudor_driver : String := "tudor"

/-- The driver identifier of another driver. -/
def other_driver : String := "other"

/-- A device with the given liveness, print to delete and record cache. -/
def sample_dev (host_dead : Bool) (print : FpPrint) (db_records : List record) :
    FpiDeviceTudor :=
  { driver := tudor_driver, host_dead := host_dead, delete_data := print,
    db_records := db_records,
    send_msg := ⟨0, .other 0, RECGUID.fill 0, 0⟩, acked_sends := [], completions := [] }

/-- A device-stored print of this driver for the identity (`guid`, `finger`). -/
def sample_print (finger : guchar) (guid : List guchar) : FpPrint :=
  ⟨some tudor_driver, true, record_blob finger guid⟩

/-- An acknowledgment message. -/
def sample_ack : IPCMessageBuf := ⟨sizeof_ipc_msg_type, .other 0, RECGUID.fill 0, 0⟩

/-- The cache of the example in the specification: `[(G1,F1),(G2,F2),(G1,F1)]`. -/
def example_cache : List record :=
  [⟨RECGUID.fill 1, 1⟩, ⟨RECGUID.fill 2, 2⟩, ⟨RECGUID.fill 1, 1⟩]

/-! # Theorems -/

/-! ## Lemmas on the record cache -/

theorem memcmp_eq_zero_iff : ∀ (n : Nat) (a b : List guchar), n ≤ a.length → n ≤ b.length →
    (memcmp a b n = 0 ↔ a.take n = b.take n)
  | 0, a, b, _, _ => by
    cases a <;> cases b <;> simp [memcmp]
  | n + 1, [], _, ha, _ => by simp at ha
  | n + 1, _ :: _, [], _, hb => by simp at hb
  | n + 1, x :: a, y :: b, ha, hb => by
    have ih := memcmp_eq_zero_iff n a b (by simpa using ha) (by simpa using hb)
    by_cases hxy : x = y
    · simp [memcmp, hxy, ih]
    · have hne : (x.val : Int) - (y.val : Int) ≠ 0 := by
        intro h
        apply hxy
        apply Fin.ext
        omega
      simp [memcmp, hxy, hne]

theorem memcmp_guid_eq_zero_iff (g1 g2 : RECGUID) :
    memcmp g1.bytes g2.bytes sizeof_RECGUID = 0 ↔ g1 = g2 := by
  have h := memcmp_eq_zero_iff 16 g1.bytes g2.bytes (by rw [g1.size_eq]) (by rw [g2.size_eq])
  have e1 : g1.bytes.take 16 = g1.bytes := List.take_of_length_le (by rw [g1.size_eq])
  have e2 : g2.bytes.take 16 = g2.bytes := List.take_of_length_le (by rw [g2.size_eq])
  rw [e1, e2] at h
  rw [show sizeof_RECGUID = 16 from rfl, h]
  constructor
  · intro hb
    cases g1; cases g2
    simp only at hb
    subst hb
    rfl
  · intro hg
    rw [hg]

theorem record_matches_iff (entry : record) (params : delete_params) :
    record_matches entry params = true ↔ entry = ⟨params.guid, params.finger⟩ := by
  unfold record_matches
  rw [Bool.and_eq_true, beq_iff_eq, beq_iff_eq, memcmp_guid_eq_zero_iff]
  constructor
  · rintro ⟨h1, h2⟩
    cases entry
    simp only at h1 h2
    rw [h1, h2]
  · intro h
    rw [h]
    exact ⟨rfl, rfl⟩

/-- The loop of `delete_acked_cb` removes, with `g_ptr_array_remove_index_fast`, the
entry at the lowest matching index from `i` on, when the fuel covers the rest of the array. -/
theorem delete_acked_cb_loop_eq (params : delete_params) :
    ∀ (fuel i : Nat) (db : List record), db.length ≤ i + fuel →
      delete_acked_cb_loop params fuel i db =
        if i + (db.drop i).findIdx (record_matches · params) < db.length then
          g_ptr_array_remove_index_fast db
            (i + (db.drop i).findIdx (record_matches · params))
        else db
  | 0, i, db, h => by
    have hd : db.drop i = [] := List.drop_of_length_le (by omega)
    have : ¬ i < db.length := by omega
    simp [delete_acked_cb_loop, hd, this]
  | fuel + 1, i, db, h => by
    by_cases hi : i < db.length
    · have hd : db.drop i = db[i] :: db.drop (i + 1) := List.drop_eq_getElem_cons hi
      by_cases hm : record_matches db[i] params = true
      · have e : (db.drop i).findIdx (record_matches · params) = 0 := by
          rw [hd, List.findIdx_cons, hm]
          rfl
        rw [e]
        simp [delete_acked_cb_loop, hi, hm]
      · have ih := delete_acked_cb_loop_eq params fuel (i + 1) db (by omega)
        simp only [Bool.not_eq_true] at hm
        have e : i + (db.drop i).findIdx (record_matches · params)
            = i + 1 + (db.drop (i + 1)).findIdx (record_matches · params) := by
          rw [hd, List.findIdx_cons, hm]
          simp only [cond_false]
          omega
        rw [e, ← ih]
        simp [delete_acked_cb_loop, hi, hm]
    · have hd : db.drop i = [] := List.drop_of_length_le (by omega)
      simp [delete_acked_cb_loop, hd, hi]

theorem cons_perm_getElem_cons_set {α : Type} (x : α) :
    ∀ (l : List α) (i : Nat) (h : i < l.length), (x :: l).Perm (l[i] :: l.set i x)
  | [], _, h => by simp at h
  | a :: t, 0, _ => by
    simpa using List.Perm.swap a x t
  | a :: t, j + 1, h => by
    have hj : j < t.length := by simpa using h
    have ih := cons_perm_getElem_cons_set x t j hj
    have h1 : (x :: a :: t).Perm (a :: x :: t) := List.Perm.swap a x t
    have h2 : (a :: x :: t).Perm (a :: t[j] :: t.set j x) := ih.cons a
    have h3 : (a :: t[j] :: t.set j x).Perm (t[j] :: a :: t.set j x) :=
      List.Perm.swap _ _ _
    simpa using (h1.trans h2).trans h3

/-- Removing index `i` with `g_ptr_array_remove_index_fast` takes out the entry at `i`
and keeps every other entry, up to order. -/
theorem g_ptr_array_remove_index_fast_perm {α : Type} (l : List α) (i : Nat)
    (h : i < l.length) : l.Perm (l[i] :: g_ptr_array_remove_index_fast l i) := by
  have hne : l ≠ [] := by
    intro hl
    subst hl
    simp at h
  obtain ⟨init, last, hl⟩ : ∃ init last, l = init ++ [last] :=
    ⟨l.dropLast, l.getLast hne, (List.dropLast_append_getLast hne).symm⟩
  · subst hl
    have hlen : (init ++ [last]).length = init.length + 1 := by simp
    unfold g_ptr_array_remove_index_fast
    rw [if_pos h]
    have hlast : (init ++ [last]).getLast? = some last := by simp
    simp only [hlast, hlen, Nat.add_sub_cancel]
    by_cases hi : i = init.length
    · subst hi
      simp only [ne_eq, not_true_eq_false, if_false, List.dropLast_concat]
      rw [List.getElem_append_right (Nat.le_refl _)]
      simp [List.perm_append_comm]
    · have hlt : i < init.length := by omega
      simp only [ne_eq, hi, not_false_eq_true, if_true]
      rw [List.getElem_append_left hlt, List.set_append_left _ _ hlt,
        List.dropLast_concat]
      have h1 : (init ++ [last]).Perm (last :: init) := by
        simp [List.perm_append_comm]
      exact h1.trans (cons_perm_getElem_cons_set last init i hlt)

/-- The loop as `delete_acked_cb` runs it: from index 0 with the array length as fuel. -/
theorem delete_acked_cb_loop_zero (params : delete_params) (db : List record) :
    delete_acked_cb_loop params db.length 0 db =
      if db.findIdx (record_matches · params) < db.length then
        g_ptr_array_remove_index_fast db (db.findIdx (record_matches · params))
      else db := by
  have h := delete_acked_cb_loop_eq params db.length 0 db (by omega)
  simpa using h

theorem delete_acked_cb_loop_absent (params : delete_params) (db : List record)
    (h : (⟨params.guid, params.finger⟩ : record) ∉ db) :
    delete_acked_cb_loop params db.length 0 db = db := by
  rw [delete_acked_cb_loop_zero]
  have hidx : db.findIdx (record_matches · params) = db.length := by
    apply List.findIdx_eq_length.mpr
    intro x hx
    cases hm : record_matches x params
    · rfl
    · exfalso
      apply h
      rw [← (record_matches_iff x params).mp hm]
      exact hx
  rw [hidx]
  simp

theorem delete_acked_cb_loop_present (params : delete_params) (db : List record)
    (h : (⟨params.guid, params.finger⟩ : record) ∈ db) :
    db.Perm (⟨params.guid, params.finger⟩ :: delete_acked_cb_loop params db.length 0 db) := by
  rw [delete_acked_cb_loop_zero]
  have hex : ∃ x ∈ db, record_matches x params = true :=
    ⟨_, h, (record_matches_iff _ params).mpr rfl⟩
  have hlt : db.findIdx (record_matches · params) < db.length :=
    List.findIdx_lt_length_of_exists hex
  have hget : record_matches (db[db.findIdx (record_matches · params)]) params = true :=
    List.findIdx_getElem (w := hlt)
  rw [if_pos hlt]
  have hp := g_ptr_array_remove_index_fast_perm db _ hlt
  rw [(record_matches_iff _ params).mp hget] at hp
  exact hp

theorem delete_acked_cb_db_records (tdev : FpiDeviceTudor) (ack : IPCMessageBuf)
    (params : delete_params) :
    (delete_acked_cb tdev (.pointer (some ack)) params).db_records =
      delete_acked_cb_loop params tdev.db_records.length 0 tdev.db_records := by
  rfl

/-! ## The delete and clear-storage commands -/

/-- C1: when the identity (guid, finger) occurs in the record cache, `delete_acked_cb` on a
successful acknowledgment removes exactly one entry: the cache is one shorter, and as a
multiset it is the old cache minus one occurrence of (guid, finger). -/
theorem delete_acked_cb_removes_exactly_one (tdev : FpiDeviceTudor) (ack : IPCMessageBuf)
    (params : delete_params)
    (h : (⟨params.guid, params.finger⟩ : record) ∈ tdev.db_records) :
    (delete_acked_cb tdev (.pointer (some ack)) params).db_records.length + 1
        = tdev.db_records.length ∧
      ((delete_acked_cb tdev (.pointer (some ack)) params).db_records : Multiset record)
        = (tdev.db_records : Multiset record).erase ⟨params.guid, params.finger⟩ := by
  rw [delete_acked_cb_db_records]
  have hp := delete_acked_cb_loop_present params tdev.db_records h
  constructor
  · have hl := hp.length_eq
    simp only [List.length_cons] at hl
    exact hl.symm
  · have hm : (tdev.db_records : Multiset record)
        = (⟨params.guid, params.finger⟩ : record) ::ₘ
          (delete_acked_cb_loop params tdev.db_records.length 0 tdev.db_records :
            Multiset record) := by
      rw [Multiset.cons_coe]
      exact Quotient.sound hp
    rw [hm, Multiset.erase_cons_head]

/-- C1 on the specification's example: deleting (G1,F1) from `[(G1,F1),(G2,F2),(G1,F1)]`. -/
theorem delete_acked_cb_removes_exactly_one_witness :
    (⟨RECGUID.fill 1, 1⟩ : record) ∈ (sample_dev false (sample_print 1 []) example_cache).db_records ∧
    ((delete_acked_cb (sample_dev false (sample_print 1 []) example_cache)
        (.pointer (some sample_ack)) ⟨RECGUID.fill 1, 1⟩).db_records.length + 1
        = (sample_dev false (sample_print 1 []) example_cache).db_records.length ∧
      ((delete_acked_cb (sample_dev false (sample_print 1 []) example_cache)
        (.pointer (some sample_ack)) ⟨RECGUID.fill 1, 1⟩).db_records : Multiset record)
        = ((sample_dev false (sample_print 1 []) example_cache).db_records :
            Multiset record).erase ⟨RECGUID.fill 1, 1⟩) :=
  ⟨by decide, delete_acked_cb_removes_exactly_one
    (sample_dev false (sample_print 1 []) example_cache) sample_ack ⟨RECGUID.fill 1, 1⟩
    (by decide)⟩

/-- C2: when the acknowledgment wait of a delete fails with error `e`, `delete_acked_cb`
hands `e` to `fpi_device_clear_storage_complete`; no delete completion is signalled. -/
theorem delete_acked_cb_error_completes_clear_storage (tdev : FpiDeviceTudor) (e : GError)
    (params : delete_params) :
    (delete_acked_cb tdev (.error e) params).completions
      = tdev.completions ++ [Completion.fpi_device_clear_storage_complete (some e)] := by
  rfl

theorem acked_cb_no_message_db_records (tdev : FpiDeviceTudor) (params : delete_params)
    (res : GTaskResult) (hr : (g_task_propagate_pointer res).1 = none) :
    (delete_acked_cb tdev res params).db_records = tdev.db_records ∧
    (clear_storage_acked_cb tdev res).db_records = tdev.db_records := by
  cases res with
  | pointer msg =>
    cases msg with
    | none => exact ⟨rfl, rfl⟩
    | some m => simp [g_task_propagate_pointer] at hr
  | error e => exact ⟨rfl, rfl⟩

theorem run_acked_callbacks_none (before requested : FpiDeviceTudor) (res : GTaskResult)
    (h : requested.acked_sends = before.acked_sends) :
    run_acked_callbacks before requested res = requested := by
  unfold run_acked_callbacks
  rw [h, List.drop_length]
  rfl

theorem run_acked_callbacks_one (before requested : FpiDeviceTudor) (res : GTaskResult)
    (p : AckedSend) (h : requested.acked_sends = before.acked_sends ++ [p]) :
    run_acked_callbacks before requested res = p.run requested res := by
  unfold run_acked_callbacks
  rw [h, List.drop_left]
  rfl

/-- The request `fpi_device_tudor_delete` never writes the record cache. -/
theorem fpi_device_tudor_delete_db_records (tdev : FpiDeviceTudor) (uninit : delete_params) :
    (fpi_device_tudor_delete tdev uninit).db_records = tdev.db_records := by
  cases hd : tdev.host_dead
  · cases hr : (get_print_guid_finger tdev.driver tdev.delete_data uninit.guid
        uninit.finger).ret <;>
      simp [fpi_device_tudor_delete, check_host_proc_dead, hd, hr,
        fpi_device_delete_complete, send_acked_ipc_msg]
  · simp [fpi_device_tudor_delete, check_host_proc_dead, hd, fpi_device_delete_complete]

/-- The request `fpi_device_clear_storage` never writes the record cache. -/
theorem fpi_device_clear_storage_db_records (tdev : FpiDeviceTudor) :
    (fpi_device_clear_storage tdev).db_records = tdev.db_records := by
  cases hd : tdev.host_dead <;>
    simp [fpi_device_clear_storage, check_host_proc_dead, hd,
      fpi_device_clear_storage_complete, send_acked_ipc_msg]

/-- The commands `fpi_device_tudor_delete` adds to the log: none, or one whose callback
is `delete_acked_cb`. -/
theorem fpi_device_tudor_delete_sends (tdev : FpiDeviceTudor) (uninit : delete_params) :
    (fpi_device_tudor_delete tdev uninit).acked_sends = tdev.acked_sends ∨
    ∃ msg params, (fpi_device_tudor_delete tdev uninit).acked_sends
      = tdev.acked_sends ++ [⟨msg, AckedCallback.delete_acked_cb params⟩] := by
  cases hd : tdev.host_dead
  · cases hr : (get_print_guid_finger tdev.driver tdev.delete_data uninit.guid
        uninit.finger).ret
    · left
      simp [fpi_device_tudor_delete, check_host_proc_dead, hd, hr,
        fpi_device_delete_complete]
    · right
      refine ⟨⟨sizeof_ipc_msg_del_record, ipc_msg_type.IPC_MSG_DEL_RECORD,
        (get_print_guid_finger tdev.driver tdev.delete_data uninit.guid uninit.finger).guid,
        (get_print_guid_finger tdev.driver tdev.delete_data uninit.guid
          uninit.finger).finger⟩,
        ⟨(get_print_guid_finger tdev.driver tdev.delete_data uninit.guid uninit.finger).guid,
        (get_print_guid_finger tdev.driver tdev.delete_data uninit.guid
          uninit.finger).finger⟩, ?_⟩
      simp [fpi_device_tudor_delete, check_host_proc_dead, hd, hr, send_acked_ipc_msg]
  · left
    simp [fpi_device_tudor_delete, check_host_proc_dead, hd, fpi_device_delete_complete]

/-- The commands `fpi_device_clear_storage` adds to the log: none, or one whose callback
is `clear_storage_acked_cb`. -/
theorem fpi_device_clear_storage_sends (tdev : FpiDeviceTudor) :
    (fpi_device_clear_storage tdev).acked_sends = tdev.acked_sends ∨
    ∃ msg, (fpi_device_clear_storage tdev).acked_sends
      = tdev.acked_sends ++ [⟨msg, AckedCallback.clear_storage_acked_cb⟩] := by
  cases hd : tdev.host_dead
  · right
    refine ⟨⟨sizeof_ipc_msg_type, ipc_msg_type.IPC_MSG_CLEAR_RECORDS, tdev.send_msg.guid,
      tdev.send_msg.finger⟩, ?_⟩
    simp [fpi_device_clear_storage, check_host_proc_dead, hd, send_acked_ipc_msg]
  · left
    simp [fpi_device_clear_storage, check_host_proc_dead, hd,
      fpi_device_clear_storage_complete]

/-- C3: a delete or clear-storage operation that fails leaves the record cache as it was
before the operation, for each kind of failure: the host-dead precheck (Unresponsive),
the identity extraction of delete (DataInvalid), and an acknowledgment that carries no
message (IoFailure).  The operation is the request followed by the callback of the
command it sent; the request alone never writes the cache, and a callback run on a
failed acknowledgment leaves the cache of the device it runs on as it was. -/
theorem failure_leaves_db_records (tdev : FpiDeviceTudor) (uninit params : delete_params)
    (res : GTaskResult) :
    (tdev.host_dead = true →
      (delete_operation tdev uninit res).db_records = tdev.db_records ∧
      (clear_storage_operation tdev res).db_records = tdev.db_records ∧
      (delete_operation tdev uninit res).acked_sends = tdev.acked_sends ∧
      (clear_storage_operation tdev res).acked_sends = tdev.acked_sends) ∧
    (tdev.host_dead = false →
      (get_print_guid_finger tdev.driver tdev.delete_data uninit.guid uninit.finger).ret
        = false →
      (delete_operation tdev uninit res).db_records = tdev.db_records ∧
      (delete_operation tdev uninit res).acked_sends = tdev.acked_sends) ∧
    ((g_task_propagate_pointer res).1 = none →
      (delete_operation tdev uninit res).db_records = tdev.db_records ∧
      (clear_storage_operation tdev res).db_records = tdev.db_records) ∧
    ((fpi_device_tudor_delete tdev uninit).db_records = tdev.db_records ∧
      (fpi_device_clear_storage tdev).db_records = tdev.db_records) ∧
    ((g_task_propagate_pointer res).1 = none →
      (delete_acked_cb tdev res params).db_records = tdev.db_records ∧
      (clear_storage_acked_cb tdev res).db_records = tdev.db_records) := by
  have hdel := fpi_device_tudor_delete_db_records tdev uninit
  have hclr := fpi_device_clear_storage_db_records tdev
  refine ⟨?_, ?_, ?_, ⟨hdel, hclr⟩, acked_cb_no_message_db_records tdev params res⟩
  · intro hd
    have h1 : (fpi_device_tudor_delete tdev uninit).acked_sends = tdev.acked_sends := by
      simp [fpi_device_tudor_delete, check_host_proc_dead, hd, fpi_device_delete_complete]
    have h2 : (fpi_device_clear_storage tdev).acked_sends = tdev.acked_sends := by
      simp [fpi_device_clear_storage, check_host_proc_dead, hd,
        fpi_device_clear_storage_complete]
    unfold delete_operation clear_storage_operation
    rw [run_acked_callbacks_none _ _ res h1, run_acked_callbacks_none _ _ res h2]
    exact ⟨hdel, hclr, h1, h2⟩
  · intro hd hr
    have h1 : (fpi_device_tudor_delete tdev uninit).acked_sends = tdev.acked_sends := by
      simp [fpi_device_tudor_delete, check_host_proc_dead, hd, hr,
        fpi_device_delete_complete]
    unfold delete_operation
    rw [run_acked_callbacks_none _ _ res h1]
    exact ⟨hdel, h1⟩
  · intro hres
    constructor
    · unfold delete_operation
      rcases fpi_device_tudor_delete_sends tdev uninit with h1 | ⟨msg, p, h1⟩
      · rw [run_acked_callbacks_none _ _ res h1]
        exact hdel
      · rw [run_acked_callbacks_one _ _ res _ h1]
        exact ((acked_cb_no_message_db_records _ p res hres).1).trans hdel
    · unfold clear_storage_operation
      rcases fpi_device_clear_storage_sends tdev with h1 | ⟨msg, h1⟩
      · rw [run_acked_callbacks_none _ _ res h1]
        exact hclr
      · rw [run_acked_callbacks_one _ _ res _ h1]
        exact ((acked_cb_no_message_db_records _ ⟨RECGUID.fill 0, 0⟩ res hres).2).trans hclr

/-- C3 on sample inputs: a dead host, a live host with a print whose guid is empty, and a
live host with a valid print whose acknowledgment fails, for delete and for clear. -/
theorem failure_leaves_db_records_witness :
    ((delete_operation (sample_dev true (sample_print 1 []) example_cache)
        ⟨RECGUID.fill 0, 0⟩ (.error (.transport 5))).db_records = example_cache ∧
      (clear_storage_operation (sample_dev true (sample_print 1 []) example_cache)
        (.error (.transport 5))).db_records = example_cache) ∧
    (delete_operation (sample_dev false (sample_print 1 []) example_cache)
        ⟨RECGUID.fill 0, 0⟩ (.pointer (some sample_ack))).db_records = example_cache ∧
    ((delete_operation
        (sample_dev false (sample_print 1 (List.replicate 16 1)) example_cache)
        ⟨RECGUID.fill 0, 0⟩ (.error (.transport 5))).db_records = example_cache ∧
      (clear_storage_operation
        (sample_dev false (sample_print 1 (List.replicate 16 1)) example_cache)
        (.error (.transport 5))).db_records = example_cache) ∧
    (delete_operation
        (sample_dev false (sample_print 1 (List.replicate 16 1)) example_cache)
        ⟨RECGUID.fill 0, 0⟩ (.error (.transport 5))).completions
      = [Completion.fpi_device_clear_storage_complete (some (.transport 5))] :=
  ⟨⟨((failure_leaves_db_records (sample_dev true (sample_print 1 []) example_cache)
        ⟨RECGUID.fill 0, 0⟩ ⟨RECGUID.fill 1, 1⟩ (.error (.transport 5))).1 rfl).1,
     ((failure_leaves_db_records (sample_dev true (sample_print 1 []) example_cache)
        ⟨RECGUID.fill 0, 0⟩ ⟨RECGUID.fill 1, 1⟩ (.error (.transport 5))).1 rfl).2.1⟩,
   ((failure_leaves_db_records (sample_dev false (sample_print 1 []) example_cache)
      ⟨RECGUID.fill 0, 0⟩ ⟨RECGUID.fill 1, 1⟩ (.pointer (some sample_ack))).2.1 rfl
      (by decide)).1,
   (failure_leaves_db_records
      (sample_dev false (sample_print 1 (List.replicate 16 1)) example_cache)
      ⟨RECGUID.fill 0, 0⟩ ⟨RECGUID.fill 1, 1⟩ (.error (.transport 5))).2.2.1 rfl,
   by decide⟩

/-- C4: when the liveness check reports the host dead, `fpi_device_tudor_delete` and
`fpi_device_clear_storage` send no command, leave the record cache and the send buffer
as they were, and complete their own operation with the error of the liveness check,
which is the unresponsive error. -/
theorem host_dead_short_circuits (tdev : FpiDeviceTudor) (uninit : delete_params)
    (h : (check_host_proc_dead tdev).1 = true) :
    ((fpi_device_tudor_delete tdev uninit).acked_sends = tdev.acked_sends ∧
      (fpi_device_tudor_delete tdev uninit).db_records = tdev.db_records ∧
      (fpi_device_tudor_delete tdev uninit).send_msg = tdev.send_msg ∧
      (fpi_device_tudor_delete tdev uninit).completions = tdev.completions ++
        [Completion.fpi_device_delete_complete (check_host_proc_dead tdev).2]) ∧
    ((fpi_device_clear_storage tdev).acked_sends = tdev.acked_sends ∧
      (fpi_device_clear_storage tdev).db_records = tdev.db_records ∧
      (fpi_device_clear_storage tdev).send_msg = tdev.send_msg ∧
      (fpi_device_clear_storage tdev).completions = tdev.completions ++
        [Completion.fpi_device_clear_storage_complete (check_host_proc_dead tdev).2]) ∧
    (check_host_proc_dead tdev).2 = some GError.unresponsive := by
  have hd : tdev.host_dead = true := by
    cases hh : tdev.host_dead
    · simp [check_host_proc_dead, hh] at h
    · rfl
  simp [fpi_device_tudor_delete, fpi_device_clear_storage, check_host_proc_dead, hd,
    fpi_device_delete_complete, fpi_device_clear_storage_complete]

/-- C4 on a device whose host process is dead. -/
theorem host_dead_short_circuits_witness :
    (check_host_proc_dead (sample_dev true (sample_print 1 []) example_cache)).1 = true ∧
    (fpi_device_tudor_delete (sample_dev true (sample_print 1 []) example_cache)
      ⟨RECGUID.fill 0, 0⟩).completions
      = [Completion.fpi_device_delete_complete (some GError.unresponsive)] ∧
    (fpi_device_clear_storage (sample_dev true (sample_print 1 []) example_cache)).acked_sends
      = [] :=
  ⟨rfl,
   (host_dead_short_circuits (sample_dev true (sample_print 1 []) example_cache)
      ⟨RECGUID.fill 0, 0⟩ rfl).1.2.2.2,
   (host_dead_short_circuits (sample_dev true (sample_print 1 []) example_cache)
      ⟨RECGUID.fill 0, 0⟩ rfl).2.1.1⟩

/-- C5, as stated, fails on the specification's example `[(G1,F1),(G2,F2),(G1,F1)]`: after
the acknowledged delete of (G1,F1) the cache still holds an entry (G1,F1). -/
theorem delete_acked_cb_keeps_second_match :
    (⟨RECGUID.fill 1, 1⟩ : record) ∈
      (delete_acked_cb (sample_dev false (sample_print 1 []) example_cache)
        (.pointer (some sample_ack)) ⟨RECGUID.fill 1, 1⟩).db_records := by
  decide

/-- C5, amended: when the identity (guid, finger) occurs at most once in the record cache,
the cache holds no entry with that identity after a successful delete acknowledgment. -/
theorem delete_acked_cb_no_match_left (tdev : FpiDeviceTudor) (ack : IPCMessageBuf)
    (params : delete_params)
    (h : tdev.db_records.count ⟨params.guid, params.finger⟩ ≤ 1) :
    (⟨params.guid, params.finger⟩ : record) ∉
      (delete_acked_cb tdev (.pointer (some ack)) params).db_records := by
  rw [delete_acked_cb_db_records]
  by_cases hmem : (⟨params.guid, params.finger⟩ : record) ∈ tdev.db_records
  · have hp := delete_acked_cb_loop_present params tdev.db_records hmem
    have hc := hp.count_eq ⟨params.guid, params.finger⟩
    rw [List.count_cons_self] at hc
    intro hin
    have hpos := List.count_pos_iff.mpr hin
    omega
  · rw [delete_acked_cb_loop_absent params tdev.db_records hmem]
    exact hmem

/-- C5, amended, on the cache `[(G1,F1),(G2,F2)]` and the delete of (G1,F1). -/
theorem delete_acked_cb_no_match_left_witness :
    ([⟨RECGUID.fill 1, 1⟩, ⟨RECGUID.fill 2, 2⟩] : List record).count ⟨RECGUID.fill 1, 1⟩ ≤ 1 ∧
    (⟨RECGUID.fill 1, 1⟩ : record) ∉
      (delete_acked_cb
        (sample_dev false (sample_print 1 []) [⟨RECGUID.fill 1, 1⟩, ⟨RECGUID.fill 2, 2⟩])
        (.pointer (some sample_ack)) ⟨RECGUID.fill 1, 1⟩).db_records :=
  ⟨by decide, delete_acked_cb_no_match_left
    (sample_dev false (sample_print 1 []) [⟨RECGUID.fill 1, 1⟩, ⟨RECGUID.fill 2, 2⟩])
    sample_ack ⟨RECGUID.fill 1, 1⟩ (by decide)⟩

/-- C6: on a successful acknowledgment `clear_storage_acked_cb` leaves the record cache
with size 0, whatever it held, and signals clear-storage completion without an error. -/
theorem clear_storage_acked_cb_empties (tdev : FpiDeviceTudor) (ack : IPCMessageBuf) :
    (clear_storage_acked_cb tdev (.pointer (some ack))).db_records.length = 0 ∧
    (clear_storage_acked_cb tdev (.pointer (some ack))).completions
      = tdev.completions ++ [Completion.fpi_device_clear_storage_complete none] := by
  simp [clear_storage_acked_cb, g_task_propagate_pointer, g_ptr_array_set_size,
    fpi_device_clear_storage_complete]

/-- C7: when no cache entry has both the 16 guid bytes and the finger of the identity,
`delete_acked_cb` on a successful acknowledgment leaves the record cache as it was and
signals delete completion without an error. -/
theorem delete_acked_cb_absent_is_noop (tdev : FpiDeviceTudor) (ack : IPCMessageBuf)
    (params : delete_params)
    (h : ∀ entry ∈ tdev.db_records,
      ¬ (entry.guid.bytes = params.guid.bytes ∧ entry.finger = params.finger)) :
    (delete_acked_cb tdev (.pointer (some ack)) params).db_records = tdev.db_records ∧
    (delete_acked_cb tdev (.pointer (some ack)) params).completions
      = tdev.completions ++ [Completion.fpi_device_delete_complete none] := by
  constructor
  · rw [delete_acked_cb_db_records]
    apply delete_acked_cb_loop_absent
    intro hin
    exact h _ hin ⟨rfl, rfl⟩
  · rfl

/-- C7 on the specification's example: deleting (G3,F3) against the cache `[(G1,F1)]`. -/
theorem delete_acked_cb_absent_is_noop_witness :
    ((⟨RECGUID.fill 3, 3⟩ : record) ∉ ([⟨RECGUID.fill 1, 1⟩] : List record)) ∧
    ((delete_acked_cb (sample_dev false (sample_print 3 []) [⟨RECGUID.fill 1, 1⟩])
        (.pointer (some sample_ack)) ⟨RECGUID.fill 3, 3⟩).db_records = [⟨RECGUID.fill 1, 1⟩] ∧
      (delete_acked_cb (sample_dev false (sample_print 3 []) [⟨RECGUID.fill 1, 1⟩])
        (.pointer (some sample_ack)) ⟨RECGUID.fill 3, 3⟩).completions
        = [Completion.fpi_device_delete_complete none]) :=
  ⟨by decide, delete_acked_cb_absent_is_noop
    (sample_dev false (sample_print 3 []) [⟨RECGUID.fill 1, 1⟩]) sample_ack
    ⟨RECGUID.fill 3, 3⟩ (by decide)⟩

/-! ## The record blob codec -/

theorem type_is_byte_iff (v : GVariant) :
    GVariantType.beq (g_variant_get_type v) .byte = true ↔ ∃ b, v = .byte b := by
  cases v <;> simp [g_variant_get_type, GVariantType.beq]

theorem type_is_byte_array_iff (v : GVariant) :
    GVariantType.beq (g_variant_get_type v) (.array .byte) = true ↔
      ∃ items, v = .array .byte items := by
  cases v with
  | array elem items => cases elem <;> simp [g_variant_get_type, GVariantType.beq]
  | _ => simp [g_variant_get_type, GVariantType.beq]

/-- The format check of `get_record_guid_finger` accepts exactly the tuples of a byte
array, a byte and a byte array. -/
theorem check_record_format_iff (var : GVariant) :
    g_variant_check_format_string var RECORD_VARIANT_TYPE = true ↔
      ∃ reserved f g, var = .tuple [.array .byte reserved, .byte f, .array .byte g] := by
  unfold g_variant_check_format_string RECORD_VARIANT_TYPE
  cases var with
  | tuple items =>
    match items with
    | [] => simp [g_variant_get_type, g_variant_get_types, GVariantType.beq,
        GVariantType.beqList]
    | [_] => simp [g_variant_get_type, g_variant_get_types, GVariantType.beq,
        GVariantType.beqList]
    | [_, _] => simp [g_variant_get_type, g_variant_get_types, GVariantType.beq,
        GVariantType.beqList]
    | _ :: _ :: _ :: _ :: _ => simp [g_variant_get_type, g_variant_get_types,
        GVariantType.beq, GVariantType.beqList]
    | [a, b, c] =>
      simp only [g_variant_get_type, g_variant_get_types, GVariantType.beq,
        GVariantType.beqList, Bool.and_true, Bool.and_eq_true, type_is_byte_iff,
        type_is_byte_array_iff]
      constructor
      · rintro ⟨⟨r, hr⟩, ⟨f, hf⟩, ⟨g, hg⟩⟩
        exact ⟨r, f, g, by rw [hr, hf, hg]⟩
      · rintro ⟨r, f, g, h⟩
        injection h with h
        injection h with ha h
        injection h with hb h
        injection h with hc h
        exact ⟨⟨r, ha⟩, ⟨f, hb⟩, ⟨g, hc⟩⟩
  | _ => simp [g_variant_get_type, GVariantType.beq]

theorem wf_byte_items : ∀ (g : List GVariant), GVariant.WFItems .byte g = true →
    (g.map GVariant.get_byte).map GVariant.byte = g
  | [], _ => rfl
  | v :: vs, h => by
    simp only [GVariant.WFItems, Bool.and_eq_true] at h
    obtain ⟨b, hb⟩ := (type_is_byte_iff v).mp h.1.1
    subst hb
    simp [GVariant.get_byte, wf_byte_items vs h.2]

theorem get_record_guid_finger_tuple (reserved g : List GVariant) (f : guchar)
    (guid : RECGUID) (finger : tudor_finger) :
    get_record_guid_finger (.tuple [.array .byte reserved, .byte f, .array .byte g])
        guid finger =
      ⟨g.length == 16,
        if h : (g.map GVariant.get_byte).length = 16 then ⟨g.map GVariant.get_byte, h⟩
        else guid,
        f.val⟩ := by
  have hc : g_variant_check_format_string
      (.tuple [.array .byte reserved, .byte f, .array .byte g]) RECORD_VARIANT_TYPE = true :=
    (check_record_format_iff _).mpr ⟨reserved, f, g, rfl⟩
  simp [get_record_guid_finger, hc, g_variant_get_fixed_array, GVariant.get_byte,
    store_byte, sizeof_RECGUID]

/-- C8: on a well-formed value `get_record_guid_finger` returns true exactly when the
value is a tuple (byte array, byte, byte array) whose third field has length 16; and
when it returns true the output guid holds the 16 bytes of the third field and the
output finger is the byte of the second field. -/
theorem get_record_guid_finger_spec (var : GVariant) (guid : RECGUID) (finger : tudor_finger)
    (hwf : var.WF = true) :
    ((get_record_guid_finger var guid finger).ret = true ↔
      ∃ reserved f g,
        var = .tuple [.array .byte reserved, .byte f, .array .byte g] ∧ g.length = 16) ∧
    (∀ reserved f g, var = .tuple [.array .byte reserved, .byte f, .array .byte g] →
      (get_record_guid_finger var guid finger).ret = true →
        (get_record_guid_finger var guid finger).guid.bytes.map GVariant.byte = g ∧
        (get_record_guid_finger var guid finger).finger = f.val) := by
  constructor
  · constructor
    · intro hret
      by_cases hc : g_variant_check_format_string var RECORD_VARIANT_TYPE = true
      · obtain ⟨reserved, f, g, hv⟩ := (check_record_format_iff var).mp hc
        subst hv
        rw [get_record_guid_finger_tuple] at hret
        exact ⟨reserved, f, g, rfl, by simpa using hret⟩
      · simp [get_record_guid_finger, hc] at hret
    · rintro ⟨reserved, f, g, hv, hlen⟩
      subst hv
      rw [get_record_guid_finger_tuple]
      simp [hlen]
  · intro reserved f g hv hret
    subst hv
    rw [get_record_guid_finger_tuple] at hret ⊢
    have hlen : g.length = 16 := by simpa using hret
    have hwfg : GVariant.WFItems .byte g = true := by
      simp [GVariant.WF, GVariant.WFAll] at hwf
      exact hwf.2
    have hl : (g.map GVariant.get_byte).length = 16 := by simpa using hlen
    refine ⟨?_, rfl⟩
    simp only [hl, dite_true]
    exact wf_byte_items g hwfg

/-- C8 on a record blob with finger 7 and sixteen guid bytes 9. -/
theorem get_record_guid_finger_spec_witness :
    (record_blob 7 (List.replicate 16 9)).WF = true ∧
    (get_record_guid_finger (record_blob 7 (List.replicate 16 9)) (RECGUID.fill 0) 1000).ret
      = true ∧
    (get_record_guid_finger (record_blob 7 (List.replicate 16 9)) (RECGUID.fill 0)
      1000).guid.bytes.map GVariant.byte = (List.replicate 16 (9 : guchar)).map GVariant.byte ∧
    (get_record_guid_finger (record_blob 7 (List.replicate 16 9)) (RECGUID.fill 0)
      1000).finger = 7 :=
  ⟨by decide, by decide,
    (get_record_guid_finger_spec (record_blob 7 (List.replicate 16 9)) (RECGUID.fill 0) 1000
      (by decide)).2 [] 7 ((List.replicate 16 (9 : guchar)).map GVariant.byte) rfl
      (by decide)⟩

/-- C9: on a tuple (byte array, byte, byte array) whose third field has a length other
than 16, `get_record_guid_finger` returns false and the output guid keeps the content it
had before the call. -/
theorem get_record_guid_finger_wrong_length (reserved g : List GVariant) (f : guchar)
    (guid : RECGUID) (finger : tudor_finger) (h : g.length ≠ 16) :
    (get_record_guid_finger (.tuple [.array .byte reserved, .byte f, .array .byte g])
        guid finger).ret = false ∧
    (get_record_guid_finger (.tuple [.array .byte reserved, .byte f, .array .byte g])
        guid finger).guid = guid := by
  rw [get_record_guid_finger_tuple]
  have hl : ¬ (g.map GVariant.get_byte).length = 16 := by simpa using h
  simp [h, hl]

/-- C9 on a record blob whose guid field has 15 bytes. -/
theorem get_record_guid_finger_wrong_length_witness :
    ((List.replicate 15 (9 : guchar)).map GVariant.byte).length ≠ 16 ∧
    (get_record_guid_finger (record_blob 7 (List.replicate 15 9)) (RECGUID.fill 3) 1000).ret
      = false ∧
    (get_record_guid_finger (record_blob 7 (List.replicate 15 9)) (RECGUID.fill 3) 1000).guid
      = RECGUID.fill 3 :=
  ⟨by decide, get_record_guid_finger_wrong_length [] _ 7 (RECGUID.fill 3) 1000 (by decide)⟩

theorem g_strcmp0_eq_zero_iff (a b : Option String) : g_strcmp0 a b = 0 ↔ a = b := by
  cases a with
  | none => cases b <;> simp [g_strcmp0]
  | some x =>
    cases b with
    | none => simp [g_strcmp0]
    | some y =>
      by_cases hxy : x = y
      · simp [g_strcmp0, hxy]
      · by_cases hlt : x < y <;> simp [g_strcmp0, hxy, hlt]

/-- C10: a print whose driver identifier differs from the device's, or whose
device-stored flag is false, makes `get_print_guid_finger` return false with the guid and
finger outputs as they were and without fetching the `fpi-data` payload, so that the
result is the same whatever the payload is; for any other print the return value and
the outputs are those of `get_record_guid_finger` on the payload. -/
theorem get_print_guid_finger_gate (dev_driver : String) (print : FpPrint) (guid : RECGUID)
    (finger : tudor_finger) :
    (print.driver ≠ some dev_driver ∨ print.device_stored = false →
      (get_print_guid_finger dev_driver print guid finger).ret = false ∧
      (get_print_guid_finger dev_driver print guid finger).guid = guid ∧
      (get_print_guid_finger dev_driver print guid finger).finger = finger ∧
      "fpi-data" ∉ (get_print_guid_finger dev_driver print guid finger).props_read ∧
      ∀ payload : GVariant,
        get_print_guid_finger dev_driver { print with fpi_data := payload } guid finger
          = get_print_guid_finger dev_driver print guid finger) ∧
    (print.driver = some dev_driver → print.device_stored = true →
      (get_print_guid_finger dev_driver print guid finger).ret
        = (get_record_guid_finger print.fpi_data guid finger).ret ∧
      (get_print_guid_finger dev_driver print guid finger).guid
        = (get_record_guid_finger print.fpi_data guid finger).guid ∧
      (get_print_guid_finger dev_driver print guid finger).finger
        = (get_record_guid_finger print.fpi_data guid finger).finger) := by
  constructor
  · intro h
    by_cases hd : print.driver = some dev_driver
    · have hs : print.device_stored = false := h.resolve_left (fun hn => hn hd)
      have h0 : g_strcmp0 print.driver (some dev_driver) = 0 :=
        (g_strcmp0_eq_zero_iff _ _).mpr hd
      simp [get_print_guid_finger, h0, hs]
    · have h0 : ¬ g_strcmp0 print.driver (some dev_driver) = 0 :=
        fun h0 => hd ((g_strcmp0_eq_zero_iff _ _).mp h0)
      simp [get_print_guid_finger, h0]
  · intro hd hs
    have h0 : g_strcmp0 print.driver (some dev_driver) = 0 :=
      (g_strcmp0_eq_zero_iff _ _).mpr hd
    simp [get_print_guid_finger, h0, hs]

/-- C10 on a print of another driver whose payload is a valid record blob. -/
theorem get_print_guid_finger_gate_witness :
    ((⟨some other_driver, true, record_blob 7 (List.replicate 16 9)⟩ : FpPrint).driver
        ≠ some tudor_driver ∨
      (⟨some other_driver, true, record_blob 7 (List.replicate 16 9)⟩ : FpPrint).device_stored
        = false) ∧
    (get_print_guid_finger tudor_driver ⟨some other_driver, true, record_blob 7 (List.replicate 16 9)⟩
      (RECGUID.fill 0) 1000).ret = false :=
  ⟨Or.inl (by decide),
   ((get_print_guid_finger_gate tudor_driver
      ⟨some other_driver, true, record_blob 7 (List.replicate 16 9)⟩ (RECGUID.fill 0) 1000).1
      (Or.inl (by decide))).1⟩

/-! ## Pairing data transfer -/

theorem g_variant_get_fixed_array_new (data : List guchar) :
    g_variant_get_fixed_array (g_variant_new_fixed_array data) = data := by
  simp only [g_variant_new_fixed_array, g_variant_get_fixed_array, List.map_map]
  induction data with
  | nil => rfl
  | cons b bs ih => simpa [GVariant.get_byte] using ih

theorem g_variant_get_type_new_fixed_array (data : List guchar) :
    g_variant_get_type (g_variant_new_fixed_array data) = .array .byte := by
  rfl

/-- C11: when the host answers the load call with the reply `(has_data, payload)`,
`load_pdata` returns true without an error; its buffer is `NULL` when `has_data` is
false, whatever the payload, and a buffer with the bytes of the payload when `has_data`
is true.  `load_pdata` returns false exactly when `g_dbus_connection_call_sync` returns
no reply. -/
theorem load_pdata_spec {σ : Type} (con : GDBusConnection σ) (sensor_name : String)
    (old : Option GByteArray) :
    (∀ (has_data : Bool) (payload : List guchar) (peer : σ),
      con.method_call con.peer LauncherMethod.TUDOR_HOST_LAUNCHER_LOAD_PAIRING_DATA_METHOD
          (.tuple [.string sensor_name])
        = (peer, .ok (.tuple [.boolean has_data, g_variant_new_fixed_array payload])) →
      (load_pdata con sensor_name old).ret = true ∧
      (load_pdata con sensor_name old).error = none ∧
      (load_pdata con sensor_name old).pdata = if has_data then some payload else none) ∧
    ((load_pdata con sensor_name old).ret = false ↔
      (g_dbus_connection_call_sync con
        LauncherMethod.TUDOR_HOST_LAUNCHER_LOAD_PAIRING_DATA_METHOD
        (.tuple [.string sensor_name]) (some (.tuple [.boolean, .array .byte]))).rets
        = none) := by
  constructor
  · intro has_data payload peer h
    have hget := g_variant_get_fixed_array_new payload
    have htype := g_variant_get_type_new_fixed_array payload
    cases has_data <;>
      simp [load_pdata, g_dbus_connection_call_sync, h, g_variant_get_type,
        g_variant_get_types, GVariantType.beq, GVariantType.beqList,
        g_variant_get_child_value, GVariant.get_boolean, hget, htype]
  · cases h : (g_dbus_connection_call_sync con
      LauncherMethod.TUDOR_HOST_LAUNCHER_LOAD_PAIRING_DATA_METHOD
      (.tuple [.string sensor_name]) (some (.tuple [.boolean, .array .byte]))).rets <;>
      simp [load_pdata, h]

/-- C11 on a host that answers `(false, [1, 2])`: no pairing data, and no error. -/
theorem load_pdata_spec_witness :
    (load_pdata (const_con (.ok (.tuple [.boolean false, g_variant_new_fixed_array [1, 2]])))
        tudor_driver (some [9])).ret = true ∧
    (load_pdata (const_con (.ok (.tuple [.boolean false, g_variant_new_fixed_array [1, 2]])))
        tudor_driver (some [9])).error = none ∧
    (load_pdata (const_con (.ok (.tuple [.boolean false, g_variant_new_fixed_array [1, 2]])))
        tudor_driver (some [9])).pdata = none :=
  (load_pdata_spec
    (const_con (.ok (.tuple [.boolean false, g_variant_new_fixed_array [1, 2]])))
    tudor_driver (some [9])).1 false [1, 2] () rfl

/-- C12: against the fake host double, `store_pdata` of any byte sequence followed by
`load_pdata` for the same sensor both return true without an error, and the loaded
buffer holds exactly the stored bytes. -/
theorem store_load_round_trip (stored : List (String × GByteArray)) (sensor_name : String)
    (p : GByteArray) (old : Option GByteArray) :
    (store_pdata (fake_con stored) sensor_name p).ret = true ∧
    (store_pdata (fake_con stored) sensor_name p).error = none ∧
    (load_pdata (store_pdata (fake_con stored) sensor_name p).con sensor_name old).ret
      = true ∧
    (load_pdata (store_pdata (fake_con stored) sensor_name p).con sensor_name old).error
      = none ∧
    (load_pdata (store_pdata (fake_con stored) sensor_name p).con sensor_name old).pdata
      = some p := by
  have hget := g_variant_get_fixed_array_new p
  have htype := g_variant_get_type_new_fixed_array p
  have hstore : store_pdata (fake_con stored) sensor_name p
      = ⟨true, none, fake_con ((sensor_name, p) :: stored)⟩ := by
    simp [store_pdata, g_dbus_connection_call_sync, fake_con, fake_host, hget]
  have hload : load_pdata (fake_con ((sensor_name, p) :: stored)) sensor_name old
      = ⟨true, some p, none, fake_con ((sensor_name, p) :: stored)⟩ := by
    simp [load_pdata, g_dbus_connection_call_sync, fake_con, fake_host, List.lookup,
      g_variant_get_type, g_variant_get_types, GVariantType.beq, GVariantType.beqList,
      g_variant_get_child_value, GVariant.get_boolean, hget, htype]
  rw [hstore, hload]
  exact ⟨rfl, rfl, rfl, rfl, rfl⟩

/-! ## Commands sent and the index removed -/

/-- C13: the outcome of `fpi_device_tudor_delete` is decided in this order: a dead host
completes the delete with the unresponsive error and sends nothing, whatever the print
is; with a live host a failed identity extraction completes the delete with the
data-invalid error and sends nothing; otherwise one delete command is sent and no
completion is signalled. -/
theorem fpi_device_tudor_delete_outcome (tdev : FpiDeviceTudor) (uninit : delete_params) :
    (tdev.host_dead = true →
      (fpi_device_tudor_delete tdev uninit).completions = tdev.completions ++
        [Completion.fpi_device_delete_complete (some GError.unresponsive)] ∧
      (fpi_device_tudor_delete tdev uninit).acked_sends = tdev.acked_sends) ∧
    (tdev.host_dead = false →
      (get_print_guid_finger tdev.driver tdev.delete_data uninit.guid uninit.finger).ret
        = false →
      (fpi_device_tudor_delete tdev uninit).completions = tdev.completions ++
        [Completion.fpi_device_delete_complete (some GError.data_invalid)] ∧
      (fpi_device_tudor_delete tdev uninit).acked_sends = tdev.acked_sends) ∧
    (tdev.host_dead = false →
      (get_print_guid_finger tdev.driver tdev.delete_data uninit.guid uninit.finger).ret
        = true →
      (∃ p : AckedSend,
        (fpi_device_tudor_delete tdev uninit).acked_sends = tdev.acked_sends ++ [p] ∧
        p.msg.type = ipc_msg_type.IPC_MSG_DEL_RECORD) ∧
      (fpi_device_tudor_delete tdev uninit).completions = tdev.completions) := by
  refine ⟨?_, ?_, ?_⟩
  · intro hd
    simp [fpi_device_tudor_delete, check_host_proc_dead, hd, fpi_device_delete_complete]
  · intro hd hr
    simp [fpi_device_tudor_delete, check_host_proc_dead, hd, hr, fpi_device_delete_complete]
  · intro hd hr
    simp [fpi_device_tudor_delete, check_host_proc_dead, hd, hr, send_acked_ipc_msg]

/-- C13 on three devices: a dead host with an invalid print, a live host with an invalid
print, a live host with a valid print. -/
theorem fpi_device_tudor_delete_outcome_witness :
    (fpi_device_tudor_delete (sample_dev true (sample_print 1 []) example_cache)
        ⟨RECGUID.fill 0, 0⟩).completions
      = [Completion.fpi_device_delete_complete (some GError.unresponsive)] ∧
    (fpi_device_tudor_delete (sample_dev false (sample_print 1 []) example_cache)
        ⟨RECGUID.fill 0, 0⟩).completions
      = [Completion.fpi_device_delete_complete (some GError.data_invalid)] ∧
    (fpi_device_tudor_delete
        (sample_dev false (sample_print 1 (List.replicate 16 1)) example_cache)
        ⟨RECGUID.fill 0, 0⟩).completions = [] :=
  ⟨((fpi_device_tudor_delete_outcome (sample_dev true (sample_print 1 []) example_cache)
      ⟨RECGUID.fill 0, 0⟩).1 rfl).1,
   ((fpi_device_tudor_delete_outcome (sample_dev false (sample_print 1 []) example_cache)
      ⟨RECGUID.fill 0, 0⟩).2.1 rfl (by decide)).1,
   ((fpi_device_tudor_delete_outcome
      (sample_dev false (sample_print 1 (List.replicate 16 1)) example_cache)
      ⟨RECGUID.fill 0, 0⟩).2.2 rfl (by decide)).2⟩

/-- C14: with a live host, a print that passes identity extraction with (guid, finger)
makes `fpi_device_tudor_delete` send a message of size `sizeof(struct ipc_msg_del_record)`
with tag `IPC_MSG_DEL_RECORD`, that guid and that finger, and the callback it registers
runs `delete_acked_cb` on the same (guid, finger); `fpi_device_clear_storage` sends a
message with tag `IPC_MSG_CLEAR_RECORDS` whose size is `sizeof(enum ipc_msg_type)`. -/
theorem sent_commands (tdev : FpiDeviceTudor) (uninit : delete_params)
    (h : tdev.host_dead = false) :
    ((get_print_guid_finger tdev.driver tdev.delete_data uninit.guid uninit.finger).ret
        = true →
      (fpi_device_tudor_delete tdev uninit).acked_sends = tdev.acked_sends ++
        [⟨⟨sizeof_ipc_msg_del_record, ipc_msg_type.IPC_MSG_DEL_RECORD,
            (get_print_guid_finger tdev.driver tdev.delete_data uninit.guid
              uninit.finger).guid,
            (get_print_guid_finger tdev.driver tdev.delete_data uninit.guid
              uninit.finger).finger⟩,
          AckedCallback.delete_acked_cb
            ⟨(get_print_guid_finger tdev.driver tdev.delete_data uninit.guid
              uninit.finger).guid,
             (get_print_guid_finger tdev.driver tdev.delete_data uninit.guid
              uninit.finger).finger⟩⟩] ∧
      ∀ (msg : IPCMessageBuf) (params : delete_params) (dev : FpiDeviceTudor)
        (res : GTaskResult),
        (⟨msg, AckedCallback.delete_acked_cb params⟩ : AckedSend) ∈
          (fpi_device_tudor_delete tdev uninit).acked_sends.drop tdev.acked_sends.length →
        (msg.guid = params.guid ∧ msg.finger = params.finger) ∧
        AckedSend.run ⟨msg, AckedCallback.delete_acked_cb params⟩ dev res
          = delete_acked_cb dev res ⟨msg.guid, msg.finger⟩) ∧
    (∃ msg : IPCMessageBuf,
      (fpi_device_clear_storage tdev).acked_sends = tdev.acked_sends ++
        [⟨msg, AckedCallback.clear_storage_acked_cb⟩] ∧
      msg.type = ipc_msg_type.IPC_MSG_CLEAR_RECORDS ∧ msg.size = sizeof_ipc_msg_type) := by
  constructor
  · intro hr
    have hs : (fpi_device_tudor_delete tdev uninit).acked_sends = tdev.acked_sends ++
        [⟨⟨sizeof_ipc_msg_del_record, ipc_msg_type.IPC_MSG_DEL_RECORD,
            (get_print_guid_finger tdev.driver tdev.delete_data uninit.guid
              uninit.finger).guid,
            (get_print_guid_finger tdev.driver tdev.delete_data uninit.guid
              uninit.finger).finger⟩,
          AckedCallback.delete_acked_cb
            ⟨(get_print_guid_finger tdev.driver tdev.delete_data uninit.guid
              uninit.finger).guid,
             (get_print_guid_finger tdev.driver tdev.delete_data uninit.guid
              uninit.finger).finger⟩⟩] := by
      simp [fpi_device_tudor_delete, check_host_proc_dead, h, hr, send_acked_ipc_msg]
    refine ⟨hs, ?_⟩
    intro msg params dev res hmem
    rw [hs, List.drop_left] at hmem
    simp only [List.mem_singleton] at hmem
    injection hmem with hmsg hcb
    injection hcb with hparams
    subst hmsg
    subst hparams
    exact ⟨⟨rfl, rfl⟩, rfl⟩
  · refine ⟨⟨sizeof_ipc_msg_type, ipc_msg_type.IPC_MSG_CLEAR_RECORDS, tdev.send_msg.guid,
      tdev.send_msg.finger⟩, ?_, rfl, rfl⟩
    simp [fpi_device_clear_storage, check_host_proc_dead, h, send_acked_ipc_msg]

/-- C14 on a live host and a print for the identity (sixteen bytes 1, finger 1). -/
theorem sent_commands_witness :
    (fpi_device_tudor_delete
        (sample_dev false (sample_print 1 (List.replicate 16 1)) example_cache)
        ⟨RECGUID.fill 0, 0⟩).acked_sends
      = [⟨⟨sizeof_ipc_msg_del_record, ipc_msg_type.IPC_MSG_DEL_RECORD, RECGUID.fill 1, 1⟩,
          AckedCallback.delete_acked_cb ⟨RECGUID.fill 1, 1⟩⟩] :=
  ((sent_commands (sample_dev false (sample_print 1 (List.replicate 16 1)) example_cache)
    ⟨RECGUID.fill 0, 0⟩ rfl).1 (by decide)).1

theorem g_ptr_array_remove_index_fast_eq {α : Type} (l : List α) (i : Nat) (last : α)
    (h : i < l.length) (hlast : l.getLast? = some last) :
    g_ptr_array_remove_index_fast l i
      = (if i ≠ l.length - 1 then l.set i last else l).dropLast := by
  simp [g_ptr_array_remove_index_fast, h, hlast]

/-- The index view of `g_ptr_array_remove_index_fast`: the array is one shorter, the
entries at the other indices below the last stay, the last entry moves to `i`. -/
theorem g_ptr_array_remove_index_fast_index {α : Type} (l : List α) (i : Nat)
    (h : i < l.length) :
    (g_ptr_array_remove_index_fast l i).length = l.length - 1 ∧
    (∀ j, j ≠ i → j < l.length - 1 → (g_ptr_array_remove_index_fast l i)[j]? = l[j]?) ∧
    (i ≠ l.length - 1 → (g_ptr_array_remove_index_fast l i)[i]? = l.getLast?) := by
  have hne : l ≠ [] := by
    intro hl
    subst hl
    simp at h
  have hlast : l.getLast? = some (l.getLast hne) := List.getLast?_eq_getLast _ hne
  rw [g_ptr_array_remove_index_fast_eq l i _ h hlast]
  refine ⟨?_, ?_, ?_⟩
  · by_cases hi : i = l.length - 1 <;> simp [hi]
  · intro j hji hj
    by_cases hi : i = l.length - 1
    · simp only [ne_eq, hi, not_true_eq_false, if_false, List.getElem?_dropLast, hj, if_true]
    · simp only [ne_eq, hi, not_false_eq_true, if_true, List.getElem?_dropLast,
        List.length_set, hj]
      exact List.getElem?_set_ne (Ne.symm hji)
  · intro hi
    have hlt : i < l.length - 1 := by omega
    simp only [ne_eq, hi, not_false_eq_true, if_true, List.getElem?_dropLast,
      List.length_set, hlt]
    rw [List.getElem?_set_self h, hlast]

/-- C15: on a successful delete acknowledgment, with `i` the lowest index of a matching
entry, the new cache is the swap-remove of index `i`: it is one shorter, every entry at
an index other than `i` below the last keeps its index, the former last entry is at
index `i` when `i` was not the last index, and every entry after `i`, matching or not,
is still in the cache. -/
theorem delete_acked_cb_swap_removes_first_match (tdev : FpiDeviceTudor)
    (ack : IPCMessageBuf) (params : delete_params) (i : Nat)
    (hi : i < tdev.db_records.length)
    (hm : record_matches tdev.db_records[i] params = true)
    (hmin : ∀ j (hj : j < i), record_matches tdev.db_records[j] params = false) :
    (delete_acked_cb tdev (.pointer (some ack)) params).db_records
      = g_ptr_array_remove_index_fast tdev.db_records i ∧
    (delete_acked_cb tdev (.pointer (some ack)) params).db_records.length
      = tdev.db_records.length - 1 ∧
    (∀ j, j ≠ i → j < tdev.db_records.length - 1 →
      (delete_acked_cb tdev (.pointer (some ack)) params).db_records[j]?
        = tdev.db_records[j]?) ∧
    (i ≠ tdev.db_records.length - 1 →
      (delete_acked_cb tdev (.pointer (some ack)) params).db_records[i]?
        = tdev.db_records.getLast?) ∧
    (∀ j entry, i < j → tdev.db_records[j]? = some entry →
      entry ∈ (delete_acked_cb tdev (.pointer (some ack)) params).db_records) := by
  have hidx : tdev.db_records.findIdx (record_matches · params) = i :=
    (List.findIdx_eq hi).mpr ⟨hm, hmin⟩
  have hdb : (delete_acked_cb tdev (.pointer (some ack)) params).db_records
      = g_ptr_array_remove_index_fast tdev.db_records i := by
    rw [delete_acked_cb_db_records, delete_acked_cb_loop_zero, hidx, if_pos hi]
  obtain ⟨hlen, hkeep, hmove⟩ := g_ptr_array_remove_index_fast_index tdev.db_records i hi
  rw [hdb]
  refine ⟨rfl, hlen, hkeep, hmove, ?_⟩
  intro j entry hij hj
  have hjlt : j < tdev.db_records.length := (List.getElem?_eq_some.mp hj).1
  by_cases hjl : j < tdev.db_records.length - 1
  · apply List.getElem?_mem
    rw [hkeep j (by omega) hjl]
    exact hj
  · have hje : j = tdev.db_records.length - 1 := by omega
    apply List.getElem?_mem
    rw [hmove (by omega), List.getLast?_eq_getElem?, ← hje]
    exact hj

/-- C15 on the cache `[(G2,F2),(G1,F1),(G1,F1),(G3,F3)]` and the delete of (G1,F1): index 1
is removed, (G3,F3) moves to index 1, and the second (G1,F1) stays at index 2. -/
theorem delete_acked_cb_swap_removes_first_match_witness :
    (delete_acked_cb (sample_dev false (sample_print 1 [])
        [⟨RECGUID.fill 2, 2⟩, ⟨RECGUID.fill 1, 1⟩, ⟨RECGUID.fill 1, 1⟩, ⟨RECGUID.fill 3, 3⟩])
      (.pointer (some sample_ack)) ⟨RECGUID.fill 1, 1⟩).db_records
      = g_ptr_array_remove_index_fast
          [⟨RECGUID.fill 2, 2⟩, ⟨RECGUID.fill 1, 1⟩, ⟨RECGUID.fill 1, 1⟩, ⟨RECGUID.fill 3, 3⟩] 1 ∧
    g_ptr_array_remove_index_fast
        ([⟨RECGUID.fill 2, 2⟩, ⟨RECGUID.fill 1, 1⟩, ⟨RECGUID.fill 1, 1⟩, ⟨RECGUID.fill 3, 3⟩] :
          List record) 1
      = [⟨RECGUID.fill 2, 2⟩, ⟨RECGUID.fill 3, 3⟩, ⟨RECGUID.fill 1, 1⟩] :=
  ⟨(delete_acked_cb_swap_removes_first_match (sample_dev false (sample_print 1 [])
      [⟨RECGUID.fill 2, 2⟩, ⟨RECGUID.fill 1, 1⟩, ⟨RECGUID.fill 1, 1⟩, ⟨RECGUID.fill 3, 3⟩])
      sample_ack ⟨RECGUID.fill 1, 1⟩ 1 (by decide) (by decide)
      (fun j hj => by
        have hj0 : j = 0 := by omega
        subst hj0
        rfl)).1,
   by decide⟩

end Tudor
